import Mathlib

/-!
Verification development for the tutoring-bot backend
(`backend/utils/gemini_client.py`, `backend/tools/*.py`,
`backend/agents/*.py`).

The Python source is shallowly embedded: pure routines become Lean
functions, the blocking generation gateway (`GeminiClient.generate_text`)
becomes an explicit oracle parameter of type `Gen` (prompt, system
instruction and temperature mapped to either a generated text or a
`GeminiAPIError` message), and Python exceptions become `Except` /
`Option` results.  Python `float` confidences and temperatures are
embedded as `ℚ`; every comparison proved below is exact in both
representations.
-/

/- The embedding computes with exact rationals; Batteries seals the `Rat`
arithmetic operations behind `irreducible`, which would block the
kernel-evaluation of concrete witnesses below, so reducibility is
restored here. -/
set_option allowUnsafeReducibility true
attribute [semireducible] Rat.add Rat.mul Rat.sub Rat.div Rat.inv Rat.neg
attribute [semireducible] Rat.ofScientific Rat.normalize Rat.blt Rat.floor

/-- Embedding of the Python/JSON value universe produced by `json.loads`.
Numbers are embedded as exact rationals (JSON numerals are decimal). -/
inductive Json where
  | null : Json
  | bool (b : Bool) : Json
  | num (q : ℚ) : Json
  | str (s : String) : Json
  | arr (elems : List Json) : Json
  | obj (fields : List (String × Json)) : Json

namespace Json

/-- Python truthiness of a JSON-decoded value (`if value:`). -/
def truthy : Json → Bool
  | .null => false
  | .bool b => b
  | .num q => decide (q ≠ 0)
  | .str s => decide (s ≠ "")
  | .arr xs => !xs.isEmpty
  | .obj fs => !fs.isEmpty

/-- `isinstance(value, dict)`. -/
def isObj : Json → Bool
  | .obj _ => true
  | _ => false

/-- Key lookup on an object; `json.loads` builds a `dict`, for which a
duplicated key keeps its last occurrence, so lookup scans from the end. -/
def objGet? (fields : List (String × Json)) (key : String) : Option Json :=
  match fields.reverse.find? (fun p => p.1 == key) with
  | some p => some p.2
  | none => none

/-- `value.get(key, default)` (Python `dict.get`); on a non-dict this
attribute access would raise, the agent call sites below match on `isObj`
first, mirroring where the Python code would raise `AttributeError`. -/
def getD (j : Json) (key : String) (d : Json) : Json :=
  match j with
  | .obj fs => (objGet? fs key).getD d
  | _ => d

/-- Python membership test `key in value` as evaluated by
`parse_json_response`: defined on dicts (key lookup), lists (element
equality against the string) and strings (substring test); on any other
value Python raises `TypeError`, embedded as `none`. -/
def keyIn : Json → String → Option Bool
  | .obj fs, k => some (fs.any (fun p => p.1 == k))
  | .arr xs, k => some (xs.any (fun x => match x with | .str s => s == k | _ => false))
  | .str s, k => some (List.isSublistInfixOf k.data s.data)
  | _, _ => none
where
  /-- contiguous-substring test on character lists (`needle in haystack`). -/
  List.isSublistInfixOf (needle hay : List Char) : Bool :=
    let rec go : List Char → Bool
      | [] => startsWith needle []
      | c :: rest => startsWith needle (c :: rest) || go rest
    go hay
  startsWith : List Char → List Char → Bool
    | [], _ => true
    | _ :: _, [] => false
    | a :: as, b :: bs => a == b && startsWith as bs

end Json

/-! ## `json.loads` — a JSON parser over character lists

Recursive-descent parser, fuel-bounded; faithful to Python `json.loads`
on the strict JSON grammar (objects, arrays, strings with escapes,
numbers with optional fraction and exponent, `true`/`false`/`null`,
no trailing data). -/

namespace JsonParse

def isWs (c : Char) : Bool := c == ' ' || c == '\t' || c == '\n' || c == '\r'

def skipWs (cs : List Char) : List Char := cs.dropWhile isWs

def isDigit (c : Char) : Bool := 48 ≤ c.toNat && c.toNat ≤ 57

def digitVal (c : Char) : Nat := c.toNat - 48

def hexVal (c : Char) : Option Nat :=
  let n := c.toNat
  if 48 ≤ n ∧ n ≤ 57 then some (n - 48)
  else if 97 ≤ n ∧ n ≤ 102 then some (n - 87)
  else if 65 ≤ n ∧ n ≤ 70 then some (n - 55)
  else none

/-- Parse a maximal run of decimal digits. -/
def takeDigits (cs : List Char) : List Char × List Char :=
  (cs.takeWhile isDigit, cs.dropWhile isDigit)

def digitsToNat (ds : List Char) : Nat :=
  ds.foldl (fun acc c => acc * 10 + digitVal c) 0

/-- JSON string body after the opening quote; returns the decoded string
and the rest.  Python `json.loads` (strict mode) rejects raw control
characters below U+0020 inside strings. -/
def parseStringBody : Nat → List Char → List Char → Option (String × List Char)
  | 0, _, _ => none
  | _ + 1, acc, '"' :: rest => some (String.mk acc.reverse, rest)
  | fuel + 1, acc, '\\' :: e :: rest =>
    match e with
    | '"' => parseStringBody fuel ('"' :: acc) rest
    | '\\' => parseStringBody fuel ('\\' :: acc) rest
    | '/' => parseStringBody fuel ('/' :: acc) rest
    | 'b' => parseStringBody fuel ('\x08' :: acc) rest
    | 'f' => parseStringBody fuel ('\x0c' :: acc) rest
    | 'n' => parseStringBody fuel ('\n' :: acc) rest
    | 'r' => parseStringBody fuel ('\r' :: acc) rest
    | 't' => parseStringBody fuel ('\t' :: acc) rest
    | 'u' =>
      match rest with
      | h1 :: h2 :: h3 :: h4 :: rest' =>
        match hexVal h1, hexVal h2, hexVal h3, hexVal h4 with
        | some a, some b, some c, some d =>
          let n := ((a * 16 + b) * 16 + c) * 16 + d
          if h : n.isValidChar then
            parseStringBody fuel (Char.ofNatAux n h :: acc) rest'
          else none
        | _, _, _, _ => none
      | _ => none
    | _ => none
  | fuel + 1, acc, c :: rest =>
    if c.toNat < 0x20 then none else parseStringBody fuel (c :: acc) rest
  | _ + 1, _, [] => none

/-- JSON number: `-? (0 | [1-9][0-9]*) (. [0-9]+)? ([eE][+-]?[0-9]+)?`,
evaluated exactly as a rational. -/
def parseNumber (cs : List Char) : Option (ℚ × List Char) := do
  let (neg, cs) := match cs with
    | '-' :: rest => (true, rest)
    | _ => (false, cs)
  let (intDs, cs) := takeDigits cs
  match intDs with
  | [] => none
  | '0' :: _ :: _ => none
  | _ =>
  let (fracDs, cs) ←
    match cs with
    | '.' :: rest =>
      let (ds, rest') := takeDigits rest
      if ds.isEmpty then none else some (ds, rest')
    | _ => some ([], cs)
  let (expNeg, expDs, cs) ←
    match cs with
    | e :: rest =>
      if e == 'e' || e == 'E' then
        let (sgn, rest) := match rest with
          | '-' :: r => (true, r)
          | '+' :: r => (false, r)
          | _ => (false, rest)
        let (ds, rest') := takeDigits rest
        if ds.isEmpty then none else some (sgn, ds, rest')
      else some (false, ([] : List Char), e :: rest)
    | [] => some (false, ([] : List Char), ([] : List Char))
  let mantissa : ℤ := (digitsToNat (intDs ++ fracDs) : ℤ)
  let mantissa := if neg then -mantissa else mantissa
  let exp : ℤ := (if expDs.isEmpty then 0 else (digitsToNat expDs : ℤ))
  let exp := (if expNeg then -exp else exp) - (fracDs.length : ℤ)
  let scale : ℚ :=
    if 0 ≤ exp then ((10 : ℚ) ^ exp.toNat) else 1 / (10 : ℚ) ^ (-exp).toNat
  some ((mantissa : ℚ) * scale, cs)

def startsLit (lit : List Char) (cs : List Char) : Option (List Char) :=
  match lit, cs with
  | [], rest => some rest
  | l :: ls, c :: rest => if l == c then startsLit ls rest else none
  | _ :: _, [] => none

mutual

/-- One JSON value (leading whitespace allowed), returning the rest. -/
def parseVal : Nat → List Char → Option (Json × List Char)
  | 0, _ => none
  | fuel + 1, cs =>
    match skipWs cs with
    | '{' :: rest =>
      match skipWs rest with
      | '}' :: rest' => some (.obj [], rest')
      | rest' => parseMembers fuel rest' []
    | '[' :: rest =>
      match skipWs rest with
      | ']' :: rest' => some (.arr [], rest')
      | rest' => parseItems fuel rest' []
    | '"' :: rest =>
      match parseStringBody (rest.length + 1) [] rest with
      | some (s, rest') => some (.str s, rest')
      | none => none
    | 't' :: rest =>
      match startsLit ['r', 'u', 'e'] rest with
      | some rest' => some (.bool true, rest')
      | none => none
    | 'f' :: rest =>
      match startsLit ['a', 'l', 's', 'e'] rest with
      | some rest' => some (.bool false, rest')
      | none => none
    | 'n' :: rest =>
      match startsLit ['u', 'l', 'l'] rest with
      | some rest' => some (.null, rest')
      | none => none
    | cs' =>
      match parseNumber cs' with
      | some (q, rest) => some (.num q, rest)
      | none => none

/-- Object members, at the start of a `"key": value` pair. -/
def parseMembers : Nat → List Char → List (String × Json) →
    Option (Json × List Char)
  | 0, _, _ => none
  | fuel + 1, cs, acc =>
    match skipWs cs with
    | '"' :: rest =>
      match parseStringBody (rest.length + 1) [] rest with
      | some (k, rest') =>
        match skipWs rest' with
        | ':' :: rest'' =>
          match parseVal fuel rest'' with
          | some (v, rest''') =>
            match skipWs rest''' with
            | ',' :: more => parseMembers fuel more ((k, v) :: acc)
            | '}' :: more => some (.obj ((k, v) :: acc).reverse, more)
            | _ => none
          | none => none
        | _ => none
      | none => none
    | _ => none

/-- Array items, at the start of a value. -/
def parseItems : Nat → List Char → List Json → Option (Json × List Char)
  | 0, _, _ => none
  | fuel + 1, cs, acc =>
    match parseVal fuel cs with
    | some (v, rest) =>
      match skipWs rest with
      | ',' :: more => parseItems fuel more (v :: acc)
      | ']' :: more => some (.arr (v :: acc).reverse, more)
      | _ => none
    | none => none

end

end JsonParse

/-- `json.loads`: parse one JSON document, rejecting trailing data. -/
def Json.parse (s : String) : Option Json :=
  match JsonParse.parseVal (s.length + 1) s.data with
  | some (j, rest) => if (JsonParse.skipWs rest).isEmpty then some j else none
  | none => none

/-! ## `GeminiClient.parse_json_response` (backend/utils/gemini_client.py)

The Python routine extracts a span with
`re.search(r'(\{.*\})', response, re.DOTALL)`: the leftmost starting
position at which the greedy pattern matches.  With `.` matching
newlines, a match starting at `i` requires `response[i] = '\x7b'` and some
`'\x7d'` strictly after `i`; greediness extends the match to the last
`'\x7d'` of the whole text.  Hence the span runs from the first `'\x7b'`
that precedes the final `'\x7d'` up to that final `'\x7d'`. -/

/-- Index of the last occurrence of `c` in `cs`. -/
def lastIdxOf (c : Char) (cs : List Char) : Option Nat :=
  match cs.reverse.findIdx? (fun x => x == c) with
  | some k => some (cs.length - 1 - k)
  | none => none

/-- The span matched by `re.search(r'(\x7b.*\x7d)', response, re.DOTALL)`,
if any. -/
def reSearchSpan (s : String) : Option String :=
  let cs := s.data
  match cs.findIdx? (fun x => x == '{'), lastIdxOf '}' cs with
  | some i, some j =>
    if i < j then some (String.mk ((cs.drop i).take (j - i + 1))) else none
  | _, _ => none

/-- Failure modes of `parse_json_response`, all surfaced as `ValueError`
(or `TypeError` for a membership test on a non-container) in Python. -/
inductive ParseErr where
  | couldNotParse : ParseErr
  | missingFields (fields : List String) : ParseErr
  | typeErr : ParseErr

/-- `GeminiClient.parse_json_response(response, required_fields)`.
The extracted span (or, with no match, the whole response) is fed to
`json.loads`; a parse failure raises `ValueError`; with a non-empty
`required_fields` list, fields are checked by Python `in` (which on a
non-container parse raises `TypeError`), and missing fields raise a
`ValueError` listing them in `required_fields` order. -/
def parse_json_response (response : String) (required_fields : List String) :
    Except ParseErr Json :=
  let json_str := (reSearchSpan response).getD response
  match Json.parse json_str with
  | none => .error .couldNotParse
  | some result =>
    if required_fields.isEmpty then .ok result
    else
      match result.keyIn (required_fields.headD "") with
      | none => .error .typeErr
      | some _ =>
        if required_fields.all (fun k => (result.keyIn k).getD false) then
          .ok result
        else
          .error (.missingFields
            (required_fields.filter (fun k => !(result.keyIn k).getD false)))

/-- Following the spec's words (not the source): locate the first
substring that forms a balanced, outermost brace-delimited block —
scan from the first `'\x7b'`, tracking nesting depth until it returns
to zero. -/
def firstBalancedBlock (s : String) : Option String :=
  let rec scan : List Char → Nat → List Char → Option (List Char)
    | [], _, _ => none
    | c :: rest, depth, acc =>
      if c == '{' then scan rest (depth + 1) (c :: acc)
      else if c == '}' then
        if depth == 1 then some (c :: acc).reverse
        else if depth == 0 then none
        else scan rest (depth - 1) (c :: acc)
      else if depth == 0 then scan rest 0 acc
      else scan rest depth (c :: acc)
  (scan s.data 0 []).map String.mk

/-- Following the spec's words: `decode_structured` with the extraction
step reading the first balanced outermost block. -/
def decodeStructuredSpec (response : String) (required_fields : List String) :
    Except ParseErr Json :=
  match firstBalancedBlock response with
  | none => .error .couldNotParse
  | some block =>
    match Json.parse block with
    | none => .error .couldNotParse
    | some result =>
      if required_fields.all (fun k => (result.keyIn k).getD false) then
        .ok result
      else
        .error (.missingFields
          (required_fields.filter (fun k => !(result.keyIn k).getD false)))

/-! ## The generation gateway

`GeminiClient.generate_text(prompt, system_instruction, temperature)` is
a blocking call on an external service; its only failure mode is
`GeminiAPIError` (every internal exception is converted to one).  It is
embedded as an oracle: a function from the call's arguments to either
the generated text or the `GeminiAPIError` message. -/
abbrev Gen := String → String → ℚ → Except String String

/-! ## `GeminiClient.analyze_question` -/

def analyzeQuestionSys : String :=
  "You are an expert at analyzing academic questions.\n" ++
  "Given a question, determine which subject it belongs to.\n" ++
  "Strictly identify the subject from the question.\n" ++
  "Avoid using the word \"general\" as a subject.\n" ++
  "Link it with the nearest subject.\n" ++
  "Don\x27t hallucinate.\n" ++
  "If you feel like the query is dependent or incomplete, use subject \"followup\".\n" ++
  "IMPORTANT: Your entire response MUST be a valid JSON object and nothing else.\n" ++
  "Do not include any explanatory text before or after the JSON.\n" ++
  "Do not use markdown formatting for the JSON.\n" ++
  "The JSON must contain exactly these fields:\n" ++
  "1. \"subject\": The primary subject area (math, physics, followup etc.)\n" ++
  "2. \"confidence\": Your confidence level (0.0-1.0)\n" ++
  "3. \"reasoning\": Brief explanation of why you chose this subject\n" ++
  "Example of correct response format:\n" ++
  "\x7b\"subject\": \"physics\", \"confidence\": 0.95, \"reasoning\": \"This question involves concepts of momentum and energy conservation which are physics topics.\"\x7d"

def analyzeQuestionPrompt (question : String) : String :=
  "Analyze this question: " ++ question

/-- The default classification substituted when structured extraction of
the analysis fails. -/
def defaultClassification : Json :=
  .obj [("subject", .str "general"),
        ("confidence", .num (1 / 2)),
        ("reasoning",
         .str "Could not analyze the question properly due to parsing error.")]

/-- `GeminiClient.analyze_question(question)`: generate at temperature
0.1, decode with required fields subject/confidence/reasoning;
a `GeminiAPIError` is re-raised, any other exception yields the default
classification. -/
def analyze_question (gen : Gen) (question : String) : Except String Json :=
  match gen (analyzeQuestionPrompt question) analyzeQuestionSys (1 / 10) with
  | .error m => .error m
  | .ok response =>
    match parse_json_response response ["subject", "confidence", "reasoning"] with
    | .ok analysis => .ok analysis
    | .error _ => .ok defaultClassification

/-! ## Calculator (backend/tools/calculator.py)

`Calculator.execute` wraps `sympy.sympify`.  The embedding models the
fragment of `sympify` the tool exercises on arithmetic input: a parser
for `+ - * /`, parentheses, integer and decimal literals and
identifiers, with sympy\x27s automatic evaluation (integer arithmetic stays
exact, a quotient of exact numbers is an `Integer` or `Rational`, any
float operand makes the result a `Float`, any free symbol leaves an
unevaluated expression).  A malformed string is a `SympifyError`,
embedded as `.error` with the parser\x27s message. -/

/-- Arithmetic syntax tree produced by the sympify model. -/
inductive SymAst where
  | numLit (q : ℚ) (isFloat : Bool) : SymAst
  | ident (s : String) : SymAst
  | add (a b : SymAst) : SymAst
  | sub (a b : SymAst) : SymAst
  | mul (a b : SymAst) : SymAst
  | div (a b : SymAst) : SymAst
  | neg (a : SymAst) : SymAst

/-- The sympy value classes `_determine_result_type` discriminates on
(`Integer`, `Rational`, `Float`, `Symbol`, other `Expr`).  `exprV`
carries plain-text and LaTeX renderings of the unevaluated expression. -/
inductive SymVal where
  | intV (n : ℤ) : SymVal
  | ratV (q : ℚ) : SymVal
  | floatV (q : ℚ) : SymVal
  | symV (name : String) : SymVal
  | exprV (text latex : String) : SymVal

namespace SympifyModel

def isIdentStart (c : Char) : Bool :=
  let n := c.toNat
  (97 ≤ n && n ≤ 122) || (65 ≤ n && n ≤ 90) || n == 95

def isIdentChar (c : Char) : Bool :=
  isIdentStart c || JsonParse.isDigit c

/-- Numeric literal: digits with an optional fractional part (a dot makes
it a sympy `Float`). -/
def parseNumLit (cs : List Char) : Option (ℚ × Bool × List Char) :=
  let (intDs, rest) := JsonParse.takeDigits cs
  if intDs.isEmpty then none
  else
    match rest with
    | '.' :: rest' =>
      let (fracDs, rest'') := JsonParse.takeDigits rest'
      let den : ℚ := (10 : ℚ) ^ fracDs.length
      some (((JsonParse.digitsToNat (intDs ++ fracDs) : ℚ) / den), true, rest'')
    | _ => some ((JsonParse.digitsToNat intDs : ℚ), false, rest)

mutual

/-- `expr := term (('+'|'-') term)*` -/
def parseExpr : Nat → List Char → Option (SymAst × List Char)
  | 0, _ => none
  | fuel + 1, cs => do
    let (a, rest) ← parseTerm fuel cs
    parseExprRest fuel a rest

def parseExprRest : Nat → SymAst → List Char → Option (SymAst × List Char)
  | 0, _, _ => none
  | fuel + 1, a, cs =>
    match JsonParse.skipWs cs with
    | '+' :: rest => do
      let (b, rest') ← parseTerm fuel rest
      parseExprRest fuel (.add a b) rest'
    | '-' :: rest => do
      let (b, rest') ← parseTerm fuel rest
      parseExprRest fuel (.sub a b) rest'
    | rest => some (a, rest)

/-- `term := factor (('*'|'/') factor)*` -/
def parseTerm : Nat → List Char → Option (SymAst × List Char)
  | 0, _ => none
  | fuel + 1, cs => do
    let (a, rest) ← parseFactor fuel cs
    parseTermRest fuel a rest

def parseTermRest : Nat → SymAst → List Char → Option (SymAst × List Char)
  | 0, _, _ => none
  | fuel + 1, a, cs =>
    match JsonParse.skipWs cs with
    | '*' :: rest => do
      let (b, rest') ← parseFactor fuel rest
      parseTermRest fuel (.mul a b) rest'
    | '/' :: rest => do
      let (b, rest') ← parseFactor fuel rest
      parseTermRest fuel (.div a b) rest'
    | rest => some (a, rest)

/-- `factor := ('+'|'-') factor | number | identifier | '(' expr ')'` -/
def parseFactor : Nat → List Char → Option (SymAst × List Char)
  | 0, _ => none
  | fuel + 1, cs =>
    match JsonParse.skipWs cs with
    | '-' :: rest => do
      let (a, rest') ← parseFactor fuel rest
      some (.neg a, rest')
    | '+' :: rest => parseFactor fuel rest
    | '(' :: rest => do
      let (a, rest') ← parseExpr fuel rest
      match JsonParse.skipWs rest' with
      | ')' :: rest'' => some (a, rest'')
      | _ => none
    | c :: rest =>
      if isIdentStart c then
        let name := c :: rest.takeWhile isIdentChar
        some (.ident (String.mk name), rest.dropWhile isIdentChar)
      else
        match parseNumLit (c :: rest) with
        | some (q, isF, rest') => some (.numLit q isF, rest')
        | none => none
    | [] => none

end

/-- Simple plain-text rendering for unevaluated expressions (only the
`exprV` payload, which no theorem below inspects). -/
def renderAst : SymAst → String
  | .numLit q _ => toString q
  | .ident s => s
  | .add a b => "(" ++ renderAst a ++ " + " ++ renderAst b ++ ")"
  | .sub a b => "(" ++ renderAst a ++ " - " ++ renderAst b ++ ")"
  | .mul a b => "(" ++ renderAst a ++ "*" ++ renderAst b ++ ")"
  | .div a b => "(" ++ renderAst a ++ "/" ++ renderAst b ++ ")"
  | .neg a => "(-" ++ renderAst a ++ ")"

/-- Classify an exact rational as sympy does: `Integer` when the
denominator is 1, `Rational` otherwise. -/
def exactVal (q : ℚ) : SymVal :=
  if q.den = 1 then .intV q.num else .ratV q

/-- sympy\x27s automatic evaluation of a binary arithmetic node.  Exact
operands stay exact; a `Float` operand floats the result; a symbolic
operand (or a division by zero, which sympy turns into `zoo`) leaves an
unevaluated expression. -/
def evalBin (mk : SymAst → SymAst → SymAst) (op : ℚ → ℚ → ℚ)
    (isDiv : Bool) (a b : SymAst) (va vb : SymVal) : SymVal :=
  match va, vb with
  | .intV x, .intV y =>
    if isDiv && y == 0 then .exprV "zoo" "\\tilde\x7b\\infty\x7d"
    else exactVal (op (x : ℚ) (y : ℚ))
  | .intV x, .ratV y =>
    if isDiv && y == 0 then .exprV "zoo" "\\tilde\x7b\\infty\x7d"
    else exactVal (op (x : ℚ) y)
  | .ratV x, .intV y =>
    if isDiv && y == 0 then .exprV "zoo" "\\tilde\x7b\\infty\x7d"
    else exactVal (op x (y : ℚ))
  | .ratV x, .ratV y =>
    if isDiv && y == 0 then .exprV "zoo" "\\tilde\x7b\\infty\x7d"
    else exactVal (op x y)
  | .intV x, .floatV y =>
    if isDiv && y == 0 then .exprV "zoo" "\\tilde\x7b\\infty\x7d"
    else .floatV (op (x : ℚ) y)
  | .ratV x, .floatV y =>
    if isDiv && y == 0 then .exprV "zoo" "\\tilde\x7b\\infty\x7d"
    else .floatV (op x y)
  | .floatV x, .intV y =>
    if isDiv && y == 0 then .exprV "zoo" "\\tilde\x7b\\infty\x7d"
    else .floatV (op x (y : ℚ))
  | .floatV x, .ratV y =>
    if isDiv && y == 0 then .exprV "zoo" "\\tilde\x7b\\infty\x7d"
    else .floatV (op x y)
  | .floatV x, .floatV y =>
    if isDiv && y == 0 then .exprV "zoo" "\\tilde\x7b\\infty\x7d"
    else .floatV (op x y)
  | _, _ => .exprV (renderAst (mk a b)) (renderAst (mk a b))

/-- Evaluate a parsed tree with sympy\x27s automatic evaluation. -/
def evalAst : SymAst → SymVal
  | .numLit q isF => if isF then .floatV q else exactVal q
  | .ident s => .symV s
  | .add a b => evalBin .add (· + ·) false a b (evalAst a) (evalAst b)
  | .sub a b => evalBin .sub (· - ·) false a b (evalAst a) (evalAst b)
  | .mul a b => evalBin .mul (· * ·) false a b (evalAst a) (evalAst b)
  | .div a b => evalBin .div (· / ·) true a b (evalAst a) (evalAst b)
  | .neg a =>
    match evalAst a with
    | .intV n => .intV (-n)
    | .ratV q => .ratV (-q)
    | .floatV q => .floatV (-q)
    | _ => .exprV ("(-" ++ renderAst a ++ ")") ("(-" ++ renderAst a ++ ")")

end SympifyModel

/-- Model of `sympy.sympify` on the arithmetic fragment: parse the whole
string, evaluate; a parse failure is a `SympifyError` whose message the
tool echoes. -/
def sympify (s : String) : Except String SymVal :=
  match SympifyModel.parseExpr (s.length + 1) s.data with
  | some (a, rest) =>
    if (JsonParse.skipWs rest).isEmpty then .ok (SympifyModel.evalAst a)
    else .error ("Sympify of expression \x27could not parse " ++ s ++ "\x27 failed")
  | none => .error ("Sympify of expression \x27could not parse " ++ s ++ "\x27 failed")

/-! ### `Calculator._format_result` — the `f"\x7b...:.6g\x7d"` rendering

For a `Rational` result the tool renders
`f"\x7bresult\x7d ≈ \x7bfloat(result):.6g\x7d"`: the exact fraction, then the decimal
rounded to 6 significant digits, in fixed notation when the decimal
exponent lies in `[-4, 6)` and scientific notation otherwise, trailing
zeros stripped (printf `%g` semantics, computed here exactly on `ℚ`). -/

namespace SigFmt

/-- Number of decimal digits of a positive natural. -/
def digitCountAux : Nat → Nat → Nat
  | 0, _ => 0
  | fuel + 1, n => if n = 0 then 0 else 1 + digitCountAux fuel (n / 10)

def digitCount (n : Nat) : Nat := digitCountAux (n + 1) n

/-- `10^e` for an integer exponent. -/
def pow10 (e : ℤ) : ℚ :=
  if 0 ≤ e then ((10 : ℚ) ^ e.toNat) else 1 / (10 : ℚ) ^ (-e).toNat

/-- Decimal exponent of a positive rational: the unique `e` with
`10^e ≤ q < 10^(e+1)`. -/
def decExp (q : ℚ) : ℤ :=
  let e0 : ℤ := (digitCount q.num.natAbs : ℤ) - (digitCount q.den : ℤ)
  if pow10 e0 ≤ q then e0 else e0 - 1

/-- Round to the nearest integer, ties to even (IEEE and printf). -/
def roundHalfEven (x : ℚ) : ℤ :=
  let f := x.floor
  let r := x - (f : ℚ)
  if r < 1 / 2 then f
  else if 1 / 2 < r then f + 1
  else if f % 2 = 0 then f else f + 1

def stripZeros (ds : List Char) : List Char :=
  (ds.reverse.dropWhile (fun c => c == '0')).reverse

/-- Fixed-notation rendering of 6 significant digits `ds` with decimal
exponent `e` (`-4 ≤ e < 6`), trailing zeros stripped. -/
def fixedRender (sign : String) (ds : List Char) (e : ℤ) : String :=
  if 0 ≤ e then
    let k := e.toNat + 1
    let intPart := ds.take k
    let fracPart := stripZeros (ds.drop k)
    if fracPart.isEmpty then sign ++ String.mk intPart
    else sign ++ String.mk intPart ++ "." ++ String.mk fracPart
  else
    let zeros := List.replicate ((-e).toNat - 1) '0'
    sign ++ "0." ++ String.mk (stripZeros (zeros ++ ds))

/-- Scientific-notation rendering (`%g` style, exponent padded to two
digits). -/
def expRender (sign : String) (ds : List Char) (e : ℤ) : String :=
  let mantFrac := stripZeros (ds.drop 1)
  let mant :=
    if mantFrac.isEmpty then String.mk (ds.take 1)
    else String.mk (ds.take 1) ++ "." ++ String.mk mantFrac
  let absE := e.natAbs
  let eDigits := if absE < 10 then "0" ++ toString absE else toString absE
  sign ++ mant ++ "e" ++ (if e < 0 then "-" else "+") ++ eDigits

/-- `f"\x7bx:.6g\x7d"` on an exact rational. -/
def sig6 (x : ℚ) : String :=
  if x = 0 then "0"
  else
    let sign := if x < 0 then "-" else ""
    let a := |x|
    let e := decExp a
    let m := roundHalfEven (a * pow10 (5 - e))
    let (m, e) := if m ≥ 1000000 then ((100000 : ℤ), e + 1) else (m, e)
    let ds := (toString m.toNat).data
    if -4 ≤ e ∧ e < 6 then fixedRender sign ds e else expRender sign ds e

end SigFmt

/-- Python `str` of a float produced by `float(result)` interpolated into
a prompt (`Result: \x7bresult\x7d`).  Python uses the shortest repr of the
IEEE double; the embedding abstracts this as the 17-significant-digit
independent rendering `sig6` (no theorem below inspects a float
rendering). -/
def floatRepr (q : ℚ) : String := SigFmt.sig6 q

/-- `str(Rational(p, q))` — sympy prints `p/q` in lowest terms, the sign
on the numerator. -/
def ratRepr (q : ℚ) : String := toString q.num ++ "/" ++ toString q.den

/-- The values `_format_result` can put in the tool result\x27s `result`
field: a native `int`, a native `float`, a formatted string, or a
`\x7b"text", "latex"\x7d` pair for unevaluated expressions. -/
inductive FormattedResult where
  | int (n : ℤ) : FormattedResult
  | float (q : ℚ) : FormattedResult
  | str (s : String) : FormattedResult
  | textLatex (text latex : String) : FormattedResult

/-- `str(value)` of a formatted result when interpolated into a prompt. -/
def FormattedResult.pyStr : FormattedResult → String
  | .int n => toString n
  | .float q => floatRepr q
  | .str s => s
  | .textLatex t l =>
    "\x7b\x27text\x27: \x27" ++ t ++ "\x27, \x27latex\x27: \x27" ++ l ++ "\x27\x7d"

/-- `Calculator._determine_result_type` (the `isinstance` chain; `Integer`
is tested before `Rational`, `Symbol` before `Expr`). -/
def determine_result_type : SymVal → String
  | .intV _ => "integer"
  | .ratV _ => "fraction"
  | .floatV _ => "decimal"
  | .symV _ => "symbol"
  | .exprV _ _ => "expression"

/-- `Calculator._format_result`: `Integer`/`Float` become native numbers,
a `Rational` becomes `f"\x7bresult\x7d ≈ \x7bfloat(result):.6g\x7d"`, and any other
`Expr` (including a bare `Symbol`) becomes the `text`/`latex` pair. -/
def format_result : SymVal → FormattedResult
  | .intV n => .int n
  | .floatV q => .float q
  | .ratV q => .str (ratRepr q ++ " ≈ " ++ SigFmt.sig6 q)
  | .symV s => .textLatex s s
  | .exprV t l => .textLatex t l

/-- `Calculator.execute` result dictionary. -/
structure CalcResult where
  success : Bool
  result : Option FormattedResult
  result_type : Option String
  expression : String
  error : Option String

/-- `Calculator.execute(expression)`: sympify, classify and format; every
exception is captured into `success:false` with the message and the
original expression echoed — nothing is raised past the boundary. -/
def Calculator.execute (expression : String) : CalcResult :=
  match sympify expression with
  | .ok result =>
    { success := true
      result := some (format_result result)
      result_type := some (determine_result_type result)
      expression := expression
      error := none }
  | .error e =>
    { success := false
      result := none
      result_type := none
      expression := expression
      error := some e }

/-! ## PhysicsConstants (backend/tools/physics_constants.py)

The constants table is loaded once at startup from a JSON file (the data
file is not part of the core source); the embedding takes the loaded
table as an explicit association-list parameter. -/

/-- One entry of the constants table:
`\x7bdescription, symbol, value, unit\x7d`. -/
structure ConstInfo where
  description : String
  symbol : String
  value : String
  unit : String

/-- The `available_constants` payload: either the full enumeration
(description and symbol per key) returned when no name is given, or the
plain key list returned on a failed lookup. -/
inductive PCListing where
  | enumeration (entries : List (String × String × String)) : PCListing
  | keys (ks : List String) : PCListing

/-- `PhysicsConstants.execute` result dictionary. -/
structure PCResult where
  success : Bool
  constant : Option ConstInfo
  available_constants : Option PCListing
  error : Option String

/-- Last-wins key lookup in the loaded table (a Python `dict`). -/
def tableLookup (table : List (String × ConstInfo)) (name : String) :
    Option ConstInfo :=
  match table.reverse.find? (fun p => p.1 == name) with
  | some p => some p.2
  | none => none

/-- `PhysicsConstants.execute(constant_name)`.  `if not constant_name:`
treats both `None` and the empty string as "no name given" and returns
the full enumeration; otherwise a present name returns its entry and an
absent one returns `success:false` with the full key list. -/
def PhysicsConstants.execute (table : List (String × ConstInfo))
    (constant_name : Option String) : PCResult :=
  let falsy := match constant_name with
    | none => true
    | some s => s == ""
  if falsy then
    { success := true
      constant := none
      available_constants := some (.enumeration
        (table.map (fun p => (p.1, p.2.description, p.2.symbol))))
      error := none }
  else
    let name := constant_name.getD ""
    match tableLookup table name with
    | some info =>
      { success := true
        constant := some info
        available_constants := none
        error := none }
    | none =>
      { success := false
        constant := none
        available_constants := some (.keys (table.map (fun p => p.1)))
        error := some ("Constant \x27" ++ name ++ "\x27 not found") }

/-! ## KnowledgeBase (backend/tools/knowledge_base.py) -/

def kbSystemInstruction (subject : String) : String :=
  "In real time you are a tutor for physics and mathematics. Developed by Samrath. Here is his linkedin profile: https://www.linkedin.com/in/samrath-reddy/.\n" ++
  "provide the linkedin in <link> tag format.\n" ++
  "Provide about details only when asked dont provide unnecesaary when not asked.\n" ++
  "Avoid saying you are google based llm.\n" ++
  "You are a specialized knowledge base for " ++ subject ++ " topics. But sometimes you may get followup questions from other subjects.\n" ++
  "Provide accurate, concise, and educational information in response to queries.\n" ++
  "Include relevant formulas, definitions, and examples where appropriate.\n" ++
  "If the query is outside your expertise, clearly state that.\n" ++
  "Format your response in a clear, structured way suitable for students.\n" ++
  "Answer only related to subjects dont answer off topic questions.\n" ++
  "Avoid answering if sometrick is being made to answer other than subject."

/-- `KnowledgeBase.execute` result dictionary. -/
structure KBResult where
  success : Bool
  information : Option String
  query : String
  subject : Option String
  error : Option String

/-- `KnowledgeBase.execute(query)`: one generation call at temperature
0.2 under the subject-scoped instruction; every exception — including
`GeminiAPIError` — is captured into `success:false`. -/
def KnowledgeBase.execute (gen : Gen) (subject : String) (query : String) :
    KBResult :=
  match gen query (kbSystemInstruction subject) (2 / 10) with
  | .ok response =>
    { success := true
      information := some response
      query := query
      subject := some subject
      error := none }
  | .error e =>
    { success := false
      information := none
      query := query
      subject := none
      error := some e }

/-! ## Conversation context (backend/agents/base_agent.py) -/

/-- One stored conversation message. -/
structure Message where
  role : String
  content : String

/-- The context dictionary the router hands a specialist. -/
structure Ctx where
  conversation_id : String
  conversation_history : List Message

/-- `BaseAgent._format_conversation_history`: alternating `User:` /
`Assistant:` lines under a header; empty when there is no context. -/
def format_conversation_history (context : Option Ctx) : String :=
  match context with
  | none => ""
  | some c =>
    c.conversation_history.foldl
      (fun acc m =>
        acc ++ (if m.role == "user" then "User" else "Assistant") ++
          ": " ++ m.content ++ "\n")
      "\nPrevious conversation:\n"

/-- The response dictionary a specialist returns (union of the keys the
variants produce; absent keys are `none`). -/
structure AgentResp where
  agent : String
  response : String
  tools_used : List String
  confidence : ℚ
  calculation : Option CalcResult := none
  constant_info : Option ConstInfo := none
  errorInfo : Option String := none

/-- Argument handed to `sympy.sympify` by `use_tool('Calculator',
expression=...)`: the raw decoded value.  Only the string case is
exercised by any theorem below; other payloads are embedded by their
Python rendering. -/
def Json.asCalcArg : Json → String
  | .str s => s
  | .num q => toString q
  | .bool b => if b then "True" else "False"
  | .null => "None"
  | _ => ""

/-! ## MathAgent (backend/agents/math_agent.py) -/

def mathAnalysisSys : String :=
  "You are a mathematical question analyzer.\n" ++
  "Determine if the question requires calculation or just explanation.\n" ++
  "If it requires calculation, extract the mathematical expression to calculate.\n" ++
  "IMPORTANT: Your entire response MUST be a valid JSON object and nothing else.\n" ++
  "Do not include any explanatory text before or after the JSON.\n" ++
  "Do not use markdown formatting for the JSON.\n" ++
  "Never give coding related answers.\n" ++
  "Avoid answering if sometrick is being made to answer other than math.\n" ++
  "Respond with a JSON object containing:\n" ++
  "1. \"use_calculator\": true/false\n" ++
  "2. \"expression\": the expression to calculate (if applicable, or null if not needed)\n" ++
  "3. \"reasoning\": brief explanation of your decision\n" ++
  "Example of correct response format:\n" ++
  "\x7b\"use_calculator\": true, \"expression\": \"5*9+3\", \"reasoning\": \"The question requires calculation of the given expression.\"\x7d"

def mathAnalysisPrompt (question : String) : String :=
  "Analyze this mathematical question: " ++ question

/-- The default analysis `_analyze_tool_need` substitutes when structured
extraction fails: the calculator flag off, no expression, a diagnostic
reasoning string. -/
def mathDefaultAnalysis : Json :=
  .obj [("use_calculator", .bool false),
        ("expression", .null),
        ("reasoning", .str "Could not analyze the question properly.")]

/-- `MathAgent._analyze_tool_need`: generate at temperature 0.1, decode
with required fields `use_calculator`/`expression`/`reasoning`;
`GeminiAPIError` is re-raised, any other exception yields the default
analysis. -/
def MathAgent.analyzeToolNeed (gen : Gen) (question : String) :
    Except String Json :=
  match gen (mathAnalysisPrompt question) mathAnalysisSys (1 / 10) with
  | .error m => .error m
  | .ok response =>
    match parse_json_response response
        ["use_calculator", "expression", "reasoning"] with
    | .ok j => .ok j
    | .error _ => .ok mathDefaultAnalysis

def mathSynthSys : String :=
  "You are a mathematics tutor.\n" ++
  "Explain the calculation result clearly, showing the steps if relevant.\n" ++
  "Use proper mathematical notation and be educational in your response."

/-- The synthesis prompt of `_generate_response_with_calculation`
(whitespace of the Python triple-quoted f-string normalized). -/
def mathCalcPrompt (question : String) (calcRes : CalcResult) (hist : String) :
    String :=
  "Question: " ++ question ++
  "\nCalculation performed: " ++ calcRes.expression ++
  "\nResult: " ++ (match calcRes.result with
    | some r => r.pyStr
    | none => "") ++
  "\n" ++ hist ++
  "\n\nPlease provide a clear, educational explanation of this result in the context of the question and any previous conversation."

/-- Calculation tier of `MathAgent.process_question` (the body of the
inner `try`): run the calculator when the analysis asks for it and an
expression is present, and synthesize tier-B text on success.  `none`
means "fall through": tool failure, absent flag or expression, or any
exception — the inner `except Exception` catches `GeminiAPIError` too. -/
def MathAgent.calcTier (gen : Gen) (question : String) (context : Option Ctx)
    (tool_analysis : Json) : Option AgentResp :=
  if (tool_analysis.getD "use_calculator" (.bool false)).truthy then
    let exprJ := tool_analysis.getD "expression" (.str "")
    if exprJ.truthy then
      let calc_result := Calculator.execute exprJ.asCalcArg
      if calc_result.success then
        match gen (mathCalcPrompt question calc_result
            (format_conversation_history context)) mathSynthSys (7 / 10) with
        | .ok text => some
            { agent := "Math Agent"
              response := text
              tools_used := ["Calculator"]
              confidence := 95 / 100
              calculation := some calc_result }
        | .error _ => none
      else none
    else none
  else none

def mathFallbackSys : String :=
  "You are a helpful math tutor. Provide clear explanations. When there is conversation history, make sure your response maintains context with previous exchanges."

def mathFallbackPrompt (question : String) (context : Option Ctx) : String :=
  "Answer this math question with step-by-step explanation: " ++ question ++
  "\n Previous Convesration: " ++ format_conversation_history context

/-- Terminal fallback tier: a direct generation call; its
`GeminiAPIError` reaches the outer handler, which re-raises it. -/
def MathAgent.fallback (gen : Gen) (question : String)
    (context : Option Ctx) : Except String AgentResp :=
  match gen (mathFallbackPrompt question context) mathFallbackSys (7 / 10) with
  | .ok text => .ok
      { agent := "Math Agent"
        response := text
        tools_used := []
        confidence := 8 / 10 }
  | .error m => .error m

/-- Knowledge tier and everything after it: query the knowledge base
with the question plus formatted history; on `success:false` (which is
how `KnowledgeBase.execute` reports even a `GeminiAPIError`) continue
to the terminal fallback. -/
def MathAgent.kbOnwards (gen : Gen) (question : String)
    (context : Option Ctx) : Except String AgentResp :=
  let query := question ++ "\n" ++ format_conversation_history context
  let kb_result := KnowledgeBase.execute gen "mathematics" query
  if kb_result.success then
    .ok { agent := "Math Agent"
          response := kb_result.information.getD ""
          tools_used := ["KnowledgeBase"]
          confidence := 9 / 10 }
  else
    MathAgent.fallback gen question context

/-- The apology response of the outer `except Exception` handler. -/
def mathApology (e : String) : AgentResp :=
  { agent := "Math Agent"
    response := "I\x27m sorry, I couldn\x27t process your mathematical question properly."
    tools_used := []
    confidence := 1 / 2
    errorInfo := some e }

/-- `MathAgent.process_question`: analysis, calculation tier, knowledge
tier, terminal fallback.  A `GeminiAPIError` from the analysis stage or
the terminal fallback is re-raised (`.error`); a non-dict decoded
analysis makes `tool_analysis.get` raise `AttributeError`, which the
outer handler converts to the apology response. -/
def MathAgent.process (gen : Gen) (question : String)
    (context : Option Ctx) : Except String AgentResp :=
  match MathAgent.analyzeToolNeed gen question with
  | .error m => .error m
  | .ok tool_analysis =>
    if tool_analysis.isObj then
      match MathAgent.calcTier gen question context tool_analysis with
      | some r => .ok r
      | none => MathAgent.kbOnwards gen question context
    else
      .ok (mathApology "\x27list\x27 object has no attribute \x27get\x27")

/-! ## PhysicsAgent (backend/agents/physics_agent.py) -/

def physAnalysisSys : String :=
  "In complete you are a tutor for physics and mathematics. Developed by Samrath. Here is his linkedin profile: https://www.linkedin.com/in/samrath-reddy/.\n" ++
  "Provide about details only when asked dont provide unnecesaary when not asked.\n" ++
  "Avoid saying you are google based llm.\n" ++
  "You are a physics question analyzer.\n" ++
  "Determine if the question requires:\n" ++
  "1. Calculation\n" ++
  "2. Physics constants lookup\n" ++
  "3. Just explanation\n" ++
  "IMPORTANT: Your entire response MUST be a valid JSON object and nothing else.\n" ++
  "Do not include any explanatory text before or after the JSON.\n" ++
  "Do not use markdown formatting for the JSON.\n" ++
  "Respond with a JSON object containing:\n" ++
  "1. \"use_calculator\": true/false\n" ++
  "2. \"expression\": the expression to calculate (if applicable, or null if not needed)\n" ++
  "3. \"use_constants\": true/false\n" ++
  "4. \"constant_name\": the name of the constant to look up (if applicable, or null if not needed)\n" ++
  "5. \"reasoning\": brief explanation of your decision"

def physAnalysisPrompt (question : String) : String :=
  "Analyze this physics question: " ++ question

/-- The default analysis the physics `_analyze_tool_need` substitutes on
extraction failure: every flag off, both argument fields null. -/
def physDefaultAnalysis : Json :=
  .obj [("use_calculator", .bool false),
        ("expression", .null),
        ("use_constants", .bool false),
        ("constant_name", .null),
        ("reasoning", .str "Could not analyze the question properly.")]

/-- `PhysicsAgent._analyze_tool_need` (five required fields). -/
def PhysicsAgent.analyzeToolNeed (gen : Gen) (question : String) :
    Except String Json :=
  match gen (physAnalysisPrompt question) physAnalysisSys (1 / 10) with
  | .error m => .error m
  | .ok response =>
    match parse_json_response response
        ["use_calculator", "expression", "use_constants", "constant_name",
         "reasoning"] with
    | .ok j => .ok j
    | .error _ => .ok physDefaultAnalysis

/-- The decoded `constant_name` value as handed to
`PhysicsConstants.execute`.  Only `null` and strings are exercised by
the theorems below; other (falsy or unhashable) payloads are embedded
as the falsy path. -/
def Json.asConstName : Json → Option String
  | .str s => some s
  | _ => none

def physConstSys : String :=
  "You are a physics tutor.\n" ++
  "Explain the physics constant clearly, including:\n" ++
  "1. Its significance in physics\n" ++
  "2. Common applications\n" ++
  "3. Related equations or principles\n" ++
  "4. Historical context if relevant\n" ++
  "Be educational in your response."

/-- The synthesis prompt of `_generate_response_with_constant`,
embedding the constant\x27s description, symbol, value and unit. -/
def physConstPrompt (question : String) (c : ConstInfo) (hist : String) :
    String :=
  "Question: " ++ question ++
  "\nConstant Information:\n- Name: " ++ c.description ++
  "\n- Symbol: " ++ c.symbol ++
  "\n- Value: " ++ c.value ++
  "\n- Unit: " ++ c.unit ++
  "\n" ++ hist ++
  "\n\nPlease provide a clear explanation of this constant in the context of the question,\nincluding its significance in physics and how it\x27s typically used."

/-- Constants tier of `PhysicsAgent.process_question` (inner `try`);
`none` means fall through to the calculation tier.  The enumeration
result (`success:true` with `constant: None`) makes
`_generate_response_with_constant` raise `AttributeError` on
`None.get`, which the inner `except Exception` catches — as it also
catches a `GeminiAPIError` from the synthesis call. -/
def PhysicsAgent.constTier (gen : Gen) (table : List (String × ConstInfo))
    (question : String) (context : Option Ctx) (tool_analysis : Json) :
    Option AgentResp :=
  if (tool_analysis.getD "use_constants" (.bool false)).truthy then
    let constant_name := (tool_analysis.getD "constant_name" .null).asConstName
    let constants_result := PhysicsConstants.execute table constant_name
    if constants_result.success then
      match constants_result.constant with
      | none => none
      | some c =>
        match gen (physConstPrompt question c
            (format_conversation_history context)) physConstSys (7 / 10) with
        | .ok text => some
            { agent := "Physics Agent"
              response := text
              tools_used := ["PhysicsConstants"]
              confidence := 95 / 100
              constant_info := some c }
        | .error _ => none
    else none
  else none

def physSynthSys : String :=
  "You are a physics tutor.\n" ++
  "Explain the calculation result clearly, showing the steps if relevant.\n" ++
  "Relate the calculation to physics principles and laws.\n" ++
  "Use proper scientific notation and be educational in your response."

/-- The synthesis prompt of the physics
`_generate_response_with_calculation`. -/
def physCalcPrompt (question : String) (calcRes : CalcResult) (hist : String) :
    String :=
  "Question: " ++ question ++
  "\nCalculation performed: " ++ calcRes.expression ++
  "\nResult: " ++ (match calcRes.result with
    | some r => r.pyStr
    | none => "") ++
  "\n" ++ hist ++
  "\n\nPlease provide a clear, educational explanation of this result in the context of the question,\nany previous conversation, and include relevant physics principles and concepts."

/-- Calculation tier of `PhysicsAgent.process_question`. -/
def PhysicsAgent.calcTier (gen : Gen) (question : String)
    (context : Option Ctx) (tool_analysis : Json) : Option AgentResp :=
  if (tool_analysis.getD "use_calculator" (.bool false)).truthy then
    let exprJ := tool_analysis.getD "expression" (.str "")
    if exprJ.truthy then
      let calc_result := Calculator.execute exprJ.asCalcArg
      if calc_result.success then
        match gen (physCalcPrompt question calc_result
            (format_conversation_history context)) physSynthSys (7 / 10) with
        | .ok text => some
            { agent := "Physics Agent"
              response := text
              tools_used := ["Calculator"]
              confidence := 95 / 100
              calculation := some calc_result }
        | .error _ => none
      else none
    else none
  else none

def physFallbackSys : String :=
  "You are a helpful physics tutor. Provide clear explanations with relevant physics principles. When there is conversation history, make sure your response maintains context with previous exchanges."

def physFallbackPrompt (question : String) (context : Option Ctx) : String :=
  "Answer this physics question with step-by-step explanation: " ++ question ++
  "\n Previous Context: " ++ format_conversation_history context

/-- Physics terminal fallback tier. -/
def PhysicsAgent.fallback (gen : Gen) (question : String)
    (context : Option Ctx) : Except String AgentResp :=
  match gen (physFallbackPrompt question context) physFallbackSys (7 / 10) with
  | .ok text => .ok
      { agent := "Physics Agent"
        response := text
        tools_used := []
        confidence := 8 / 10 }
  | .error m => .error m

/-- Physics knowledge tier and everything after it. -/
def PhysicsAgent.kbOnwards (gen : Gen) (question : String)
    (context : Option Ctx) : Except String AgentResp :=
  let query := question ++ "\n" ++ format_conversation_history context
  let kb_result := KnowledgeBase.execute gen "physics" query
  if kb_result.success then
    .ok { agent := "Physics Agent"
          response := kb_result.information.getD ""
          tools_used := ["KnowledgeBase"]
          confidence := 9 / 10 }
  else
    PhysicsAgent.fallback gen question context

/-- Calculation tier and everything after it — the pipeline entered when
the constants tier falls through. -/
def PhysicsAgent.calcOnwards (gen : Gen) (question : String)
    (context : Option Ctx) (tool_analysis : Json) : Except String AgentResp :=
  match PhysicsAgent.calcTier gen question context tool_analysis with
  | some r => .ok r
  | none => PhysicsAgent.kbOnwards gen question context

/-- The physics apology response of the outer handler. -/
def physApology (e : String) : AgentResp :=
  { agent := "Physics Agent"
    response := "I\x27m sorry, I couldn\x27t process your physics question properly."
    tools_used := []
    confidence := 1 / 2
    errorInfo := some e }

/-- `PhysicsAgent.process_question`: analysis, constants tier,
calculation tier, knowledge tier, terminal fallback. -/
def PhysicsAgent.process (gen : Gen) (table : List (String × ConstInfo))
    (question : String) (context : Option Ctx) : Except String AgentResp :=
  match PhysicsAgent.analyzeToolNeed gen question with
  | .error m => .error m
  | .ok tool_analysis =>
    if tool_analysis.isObj then
      match PhysicsAgent.constTier gen table question context tool_analysis with
      | some r => .ok r
      | none => PhysicsAgent.calcOnwards gen question context tool_analysis
    else
      .ok (physApology "\x27list\x27 object has no attribute \x27get\x27")

/-! ## TutorAgent — the router (backend/agents/tutor_agent.py) -/

/-- `subject = analysis.get('subject', '').lower()` — `.lower()` on a
non-string raises `AttributeError` (embedded as `none`).  Lowering is
per-character (every subject tag the router compares against is
ASCII). -/
def pyLower : Json → Option String
  | .str s => some (String.mk (s.data.map Char.toLower))
  | _ => none

/-- Python `confidence < 0.7` on the decoded confidence value: numbers
and booleans compare (`True == 1`, `False == 0`), anything else raises
`TypeError` (embedded as `none`). -/
def pyLtConf : Json → ℚ → Option Bool
  | .num q, c => some (decide (q < c))
  | .bool b, c => some (decide ((if b then (1 : ℚ) else 0) < c))
  | _, _ => none

/-- Specialist selection (tutor_agent.py lines 86-94): exact alias match
on the lowered subject, otherwise the confidence tie-break
`confidence < 0.7 → math, otherwise physics`. -/
def TutorAgent.selectKey (subject : String) (confidence : Json) :
    Option String :=
  if subject == "mathematics" || subject == "math" then some "math"
  else if subject == "physics" then some "physics"
  else
    match pyLtConf confidence (7 / 10) with
    | some b => some (if b then "math" else "physics")
    | none => none

/-- Conversation windowing (tutor_agent.py line 109):
`messages[-6:] if len(messages) > 6 else messages`. -/
def lastSix (messages : List Message) : List Message :=
  if messages.length > 6 then messages.drop (messages.length - 6)
  else messages

/-- The result dictionary the router returns to the transport layer on
success. -/
structure Envelope where
  response : String
  agent : String
  subject : String
  confidence : Json
  conversation_id : String
  tools_used : List String

/-- Router outcome: success envelope, error envelope (the outer
`except Exception` handler), or a re-raised `GeminiAPIError`. -/
inductive RouterOut where
  | ok (e : Envelope) : RouterOut
  | errEnv (error : String) (conversation_id : String) : RouterOut
  | svc (m : String) : RouterOut

/-- The router\x27s collaborators: the generation gateway, the two
specialists (keyed "math"/"physics"), and the persistence layer
(`create_conversation` yielding a fresh id or a falsy failure, and
`get_conversation_messages` yielding the stored message list or a falsy
failure). -/
structure RouterEnv where
  gen : Gen
  specialist : String → String → Ctx → Except String AgentResp
  createConv : Option String
  getMessages : String → String → Option (List Message)

/-- The delegation step of the router pipeline (tutor_agent.py lines
119-134): hand the question and the windowed context to the selected
specialist, validate its response, and attach
`subject`/`confidence`/`conversation_id`. -/
def TutorAgent.delegate (env : RouterEnv) (agent_key question : String)
    (context : Ctx) (subject : String) (confidence : Json) (cid : String) :
    RouterOut :=
  match env.specialist agent_key question context with
  | .error m => .svc m
  | .ok r =>
    if r.response == "" then
      .errEnv "Empty response from specialist agent" cid
    else
      .ok { response := r.response
            agent := r.agent
            subject := subject
            confidence := confidence
            conversation_id := cid
            tools_used := r.tools_used }

/-- `TutorAgent.process_question(question, user_id, conversation_id)`;
an empty `conversation_id` plays Python\x27s `None`.  Mirrors the source:
ensure the conversation exists, classify via `analyze_question`, select
the specialist, window the history to the last six messages, delegate,
and attach `subject`/`confidence`/`conversation_id` to the result.
`GeminiAPIError` is re-raised; every other failure becomes an error
envelope carrying the conversation id. -/
def TutorAgent.process (env : RouterEnv) (question user_id conversation_id :
    String) : RouterOut :=
  match (if conversation_id == "" then
          match env.createConv with
          | some c => Except.ok c
          | none => Except.error "Failed to create conversation"
         else Except.ok conversation_id : Except String String) with
  | .error m => .errEnv m conversation_id
  | .ok cid =>
    match analyze_question env.gen question with
    | .error m => .svc m
    | .ok analysis =>
      if !(analysis.truthy && analysis.isObj) then
        .errEnv "Failed to analyze question" cid
      else
        match pyLower (analysis.getD "subject" (.str "")) with
        | none => .errEnv "\x27list\x27 object has no attribute \x27lower\x27" cid
        | some subject =>
          let confidence := analysis.getD "confidence" (.num 0)
          match TutorAgent.selectKey subject confidence with
          | none => .errEnv "TypeError: unorderable types" cid
          | some agent_key =>
            match env.getMessages cid user_id with
            | none => .errEnv "Failed to retrieve conversation" cid
            | some messages =>
              TutorAgent.delegate env agent_key question
                ⟨cid, lastSix messages⟩ subject confidence cid

/-! ## Concrete instances used by the counterexamples and witnesses -/

/-- A one-entry constants table. -/
def cInfo : ConstInfo :=
  ⟨"Speed of light in vacuum", "c", "299792458", "m/s"⟩

def cTable : List (String × ConstInfo) := [("c", cInfo)]

/-- A gateway on which every generation call fails with
`GeminiAPIError` — the upstream service is down. -/
def cDownGen : Gen := fun _ _ _ => .error "AI service is temporarily unavailable"

/-- A gateway whose generation output is never decodable JSON. -/
def cBadGen : Gen := fun _ _ _ => .ok "not a json object"

/-- A math tool-need analysis with every flag off. -/
def c1AnalysisText : String :=
  "\x7b\"use_calculator\": false, \"expression\": null, \"reasoning\": \"r\"\x7d"

/-- A gateway that answers the math analysis prompt, fails with
`GeminiAPIError` exactly on the knowledge-base query `"q\n"`, and
recovers on any other call (in particular the terminal fallback). -/
def c1Gen : Gen := fun prompt _ _ =>
  if prompt == mathAnalysisPrompt "q" then .ok c1AnalysisText
  else if prompt == "q\n" then .error "AI service is temporarily unavailable"
  else .ok "recovered"

/-- A classification whose confidence lies outside `[0, 1]`. -/
def c4Gen : Gen := fun _ _ _ =>
  .ok "\x7b\"subject\": \"math\", \"confidence\": 2.5, \"reasoning\": \"r\"\x7d"

def c4Analysis : Json :=
  .obj [("subject", .str "math"), ("confidence", .num (5 / 2)),
        ("reasoning", .str "r")]

/-- A physics tool-need analysis asking for a constants lookup without
naming a constant (`constant_name: null`). -/
def c6AnalysisText : String :=
  "\x7b\"use_calculator\": false, \"expression\": null, \"use_constants\": true, \"constant_name\": null, \"reasoning\": \"r\"\x7d"

/-- A gateway answering the physics analysis prompt with
`c6AnalysisText` and every other call (the knowledge-base query) with
text. -/
def c6Gen : Gen := fun prompt _ _ =>
  if prompt == physAnalysisPrompt "q" then .ok c6AnalysisText
  else .ok "kb answer"

/-- A physics tool-need analysis asking for the constant `"c"`. -/
def c6bAnalysisText : String :=
  "\x7b\"use_calculator\": false, \"expression\": null, \"use_constants\": true, \"constant_name\": \"c\", \"reasoning\": \"r\"\x7d"

/-- A healthy gateway for the successful constants-tier run. -/
def c6bGen : Gen := fun prompt _ _ =>
  if prompt == physAnalysisPrompt "q" then .ok c6bAnalysisText
  else if prompt == physConstPrompt "q" cInfo (format_conversation_history none)
  then .ok "explained"
  else .ok "other"

/-- A router classification gateway: subject `"chemistry"` at
confidence 0.9. -/
def cRouterGen : Gen := fun _ _ _ =>
  .ok "\x7b\"subject\": \"chemistry\", \"confidence\": 0.9, \"reasoning\": \"r\"\x7d"

/-- A specialist stub whose own confidence is 0.8. -/
def cSpecialist : String → String → Ctx → Except String AgentResp :=
  fun _ _ _ => .ok { agent := "Physics Agent", response := "ans",
                     tools_used := [], confidence := 8 / 10 }

def cRouterEnv : RouterEnv :=
  { gen := cRouterGen, specialist := cSpecialist, createConv := some "conv1",
    getMessages := fun _ _ => some [] }

/-- A stored conversation of ten messages. -/
def cMsgs : List Message :=
  [⟨"user", "m1"⟩, ⟨"assistant", "m2"⟩, ⟨"user", "m3"⟩, ⟨"assistant", "m4"⟩,
   ⟨"user", "m5"⟩, ⟨"assistant", "m6"⟩, ⟨"user", "m7"⟩, ⟨"assistant", "m8"⟩,
   ⟨"user", "m9"⟩, ⟨"assistant", "m10"⟩]

/-- An agent response with its confidence field rewritten — used to state
that the router discards the specialist\x27s confidence. -/
def mapConfidence (f : ℚ → ℚ) (r : AgentResp) : AgentResp :=
  { r with confidence := f r.confidence }

/-- The router environment with every specialist confidence rewritten
through `f`. -/
def RouterEnv.withMappedConfidence (env : RouterEnv) (f : ℚ → ℚ) : RouterEnv :=
  { env with specialist := fun key q c =>
      (env.specialist key q c).map (mapConfidence f) }


/-! # The claims -/

/-- C2, counterexample.  `parse_json_response` does *not* return the
parse of the first balanced outermost brace-delimited block: on a text
holding two blocks, the greedy span from the first `\x7b` to the last `\x7d`
is unparseable and the routine fails, while the spec-side
first-balanced-block decoder succeeds with the first record. -/
theorem c2_counterexample :
    parse_json_response "\x7b\"a\":1\x7d \x7b\"b\":2\x7d" [] = .error .couldNotParse ∧
    decodeStructuredSpec "\x7b\"a\":1\x7d \x7b\"b\":2\x7d" [] = .ok (.obj [("a", .num 1)]) :=
  ⟨rfl, rfl⟩

/-- C2, amended.  `parse_json_response` returns the parse of the span
from the first `\x7b` to the last `\x7d` of the text (so a single block
surrounded by prose or code fencing is extracted, and the three example
inputs all yield the identical record `\x7ba: 1\x7d`); when the span parses and
a non-empty `required_fields` list is fully present the record is
returned, and when some required field is absent the routine fails with
a `ParseError` listing exactly the missing fields in order. -/
theorem c2_amended_extraction :
    parse_json_response "\x7b\"a\":1\x7d" [] = .ok (.obj [("a", .num 1)]) ∧
    parse_json_response "\x60\x60\x60json\n\x7b\"a\":1\x7d\n\x60\x60\x60" [] = .ok (.obj [("a", .num 1)]) ∧
    parse_json_response "sure, here: \x7b\"a\":1\x7d thanks" [] = .ok (.obj [("a", .num 1)]) ∧
    (∀ (response : String) (required : List String) (j : Json),
       Json.parse ((reSearchSpan response).getD response) = some j →
       required ≠ [] →
       required.all (fun k => (j.keyIn k).getD false) = true →
       parse_json_response response required = .ok j) ∧
    (∀ (response : String) (required : List String) (j : Json) (b : Bool),
       Json.parse ((reSearchSpan response).getD response) = some j →
       j.keyIn (required.headD "") = some b →
       required.all (fun k => (j.keyIn k).getD false) = false →
       parse_json_response response required =
         .error (.missingFields
           (required.filter (fun k => !(j.keyIn k).getD false)))) := by
  refine ⟨rfl, rfl, rfl, ?_, ?_⟩
  · intro response required j hp hne hall
    cases required with
    | nil => exact absurd rfl hne
    | cons k ks =>
      have hk : (j.keyIn k).getD false = true := by
        have := hall
        simp only [List.all_cons, Bool.and_eq_true] at this
        exact this.1
      cases hkk : j.keyIn k with
      | none => rw [hkk] at hk; simp at hk
      | some b =>
        simp only [parse_json_response, hp, List.isEmpty_cons, List.headD_cons,
          hkk, Bool.false_eq_true, if_false, hall, if_true]
  · intro response required j b hp hk hall
    have hne : required ≠ [] := by
      intro hcon; rw [hcon] at hall; simp at hall
    cases required with
    | nil => exact absurd rfl hne
    | cons k ks =>
      simp only [List.headD_cons] at hk
      simp only [parse_json_response, hp, List.isEmpty_cons, List.headD_cons,
        hk, Bool.false_eq_true, if_false, hall]

/-- C2, witness: the universal conjuncts at a concrete input — the
example record with `required_fields = ["a"]` succeeds, and with
`["a", "b"]` fails listing the missing `"b"`. -/
theorem c2_witness :
    parse_json_response "\x7b\"a\":1\x7d" ["a"] = .ok (.obj [("a", .num 1)]) ∧
    parse_json_response "\x7b\"a\":1\x7d" ["a", "b"] =
      .error (.missingFields ["b"]) :=
  ⟨c2_amended_extraction.2.2.2.1 "\x7b\"a\":1\x7d" ["a"] (.obj [("a", .num 1)])
      rfl (by simp) rfl,
   c2_amended_extraction.2.2.2.2 "\x7b\"a\":1\x7d" ["a", "b"] (.obj [("a", .num 1)])
      true rfl rfl rfl⟩

/-- C3.  For every classification whose (lowered) subject is none of the
aliases `mathematics`/`math`/`physics`, the router selects the math
specialist exactly when `confidence < 0.7` and the physics specialist
when `confidence ≥ 0.7`; at confidence exactly 0.7 it selects physics
and at 0.6999 math — the boundary is half-open. -/
theorem c3_confidence_tiebreak :
    (∀ (subject : String) (c : ℚ),
       subject ≠ "mathematics" → subject ≠ "math" → subject ≠ "physics" →
       TutorAgent.selectKey subject (.num c) =
         some (if c < 7 / 10 then "math" else "physics")) ∧
    TutorAgent.selectKey "chemistry" (.num (7 / 10)) = some "physics" ∧
    TutorAgent.selectKey "chemistry" (.num (6999 / 10000)) = some "math" := by
  refine ⟨?_, rfl, rfl⟩
  intro s c h1 h2 h3
  simp [TutorAgent.selectKey, pyLtConf, h1, h2, h3]

/-- C3, witness: the tie-break at subject `"general"` and
confidence 0.5 selects math. -/
theorem c3_witness :
    TutorAgent.selectKey "general" (.num (1 / 2)) =
      some (if (1 : ℚ) / 2 < 7 / 10 then "math" else "physics") :=
  c3_confidence_tiebreak.1 "general" (1 / 2)
    (by decide) (by decide) (by decide)

/-- C4, counterexample.  `analyze_question` does not constrain the
decoded confidence to `[0.0, 1.0]`: a model output carrying
`confidence: 2.5` is returned verbatim, and 2.5 lies outside the
range. -/
theorem c4_counterexample :
    analyze_question c4Gen "q" = .ok c4Analysis ∧
    c4Analysis.getD "confidence" (.num 0) = .num (5 / 2) ∧
    ¬ ((5 : ℚ) / 2 ≤ 1) :=
  ⟨rfl, rfl, by norm_num⟩

/-- C4, amended.  When structured extraction fails, `analyze_question`
returns the default classification — subject the sentinel `"general"`,
confidence 0.5 (which does lie in `[0, 1]`); when extraction succeeds
the decoded record is returned verbatim, with no clamping of its
confidence value. -/
theorem c4_amended_confidence :
    (∀ (gen : Gen) (q response : String) (e : ParseErr),
       gen (analyzeQuestionPrompt q) analyzeQuestionSys (1 / 10) = .ok response →
       parse_json_response response ["subject", "confidence", "reasoning"] =
         .error e →
       analyze_question gen q = .ok defaultClassification) ∧
    defaultClassification.getD "subject" .null = .str "general" ∧
    defaultClassification.getD "confidence" .null = .num (1 / 2) ∧
    ((0 : ℚ) ≤ 1 / 2 ∧ (1 / 2 : ℚ) ≤ 1) ∧
    (∀ (gen : Gen) (q response : String) (j : Json),
       gen (analyzeQuestionPrompt q) analyzeQuestionSys (1 / 10) = .ok response →
       parse_json_response response ["subject", "confidence", "reasoning"] =
         .ok j →
       analyze_question gen q = .ok j) := by
  refine ⟨?_, rfl, rfl, by norm_num, ?_⟩
  · intro gen q response e hg hp
    simp only [analyze_question, hg, hp]
  · intro gen q response j hg hp
    simp only [analyze_question, hg, hp]

/-- C4, witness: on an undecodable generation result the default
classification is returned. -/
theorem c4_witness :
    analyze_question cBadGen "q" = .ok defaultClassification :=
  c4_amended_confidence.1 cBadGen "q" "not a json object" .couldNotParse
    rfl rfl

/-- C5.  `Calculator.execute("2+2")` succeeds with native integer 4;
`Calculator.execute("1/3")` succeeds with the fraction formatted as
`"1/3 ≈ 0.333333"`; and for every expression `sympify` rejects, the
tool returns `success:false` with the parser\x27s error message and the
original expression echoed — `execute` is a total function, nothing
escapes its boundary. -/
theorem c5_calculator :
    Calculator.execute "2+2" =
      ⟨true, some (.int 4), some "integer", "2+2", none⟩ ∧
    Calculator.execute "1/3" =
      ⟨true, some (.str "1/3 ≈ 0.333333"), some "fraction", "1/3", none⟩ ∧
    (∀ (expression msg : String), sympify expression = .error msg →
       Calculator.execute expression =
         ⟨false, none, none, expression, some msg⟩) := by
  refine ⟨rfl, rfl, ?_⟩
  intro expression msg h
  simp [Calculator.execute, h]

/-- C5, witness: the malformed expression `"x+"`. -/
theorem c5_witness :
    Calculator.execute "x+" = ⟨false, none, none, "x+",
      some "Sympify of expression \x27could not parse x+\x27 failed"⟩ :=
  c5_calculator.2.2 "x+" _ rfl

/-- C8.  The windowing step keeps every message when there are six or
fewer; in general it hands on a suffix (a `dropped` prefix removed, no
reordering) of length `min n 6`; a ten-message conversation yields
exactly the last six in order; and the router\x27s behaviour depends on
the specialist only through its value at the windowed context
`⟨cid, lastSix msgs⟩` — the specialist is handed exactly the most
recent six stored messages. -/
theorem c8_window :
    (∀ messages : List Message, messages.length ≤ 6 →
       lastSix messages = messages) ∧
    (∀ messages : List Message, ∃ dropped,
       messages = dropped ++ lastSix messages ∧
       (lastSix messages).length = min messages.length 6) ∧
    (∀ m1 m2 m3 m4 m5 m6 m7 m8 m9 m10 : Message,
       lastSix [m1, m2, m3, m4, m5, m6, m7, m8, m9, m10] =
         [m5, m6, m7, m8, m9, m10]) ∧
    (∀ (env : RouterEnv)
       (f : String → String → Ctx → Except String AgentResp)
       (q uid cid : String) (msgs : List Message),
       cid ≠ "" → env.getMessages cid uid = some msgs →
       (∀ key, f key q ⟨cid, lastSix msgs⟩ =
          env.specialist key q ⟨cid, lastSix msgs⟩) →
       TutorAgent.process { env with specialist := f } q uid cid =
         TutorAgent.process env q uid cid) := by
  refine ⟨?_, ?_, ?_, ?_⟩
  · intro msgs h
    rw [lastSix, if_neg (by omega)]
  · intro msgs
    by_cases h : msgs.length > 6
    · refine ⟨msgs.take (msgs.length - 6), ?_, ?_⟩
      · rw [lastSix, if_pos h, List.take_append_drop]
      · rw [lastSix, if_pos h, List.length_drop]
        omega
    · exact ⟨[], by rw [lastSix, if_neg h]; rfl,
        by rw [lastSix, if_neg h]; omega⟩
  · intro m1 m2 m3 m4 m5 m6 m7 m8 m9 m10
    rfl
  · intro env f q uid cid msgs hne hget hagree
    have hcid : (cid == "") = false := by
      simp [hne]
    simp only [TutorAgent.process, hcid, Bool.false_eq_true, if_false]
    cases hA : analyze_question env.gen q with
    | error m => simp only [hA]
    | ok analysis =>
      simp only [hA]
      by_cases hT : (!(analysis.truthy && analysis.isObj)) = true
      · simp only [hT, if_true]
      · simp only [Bool.not_eq_true] at hT
        simp only [hT, Bool.false_eq_true, if_false]
        cases hL : pyLower (analysis.getD "subject" (.str "")) with
        | none => simp only [hL]
        | some subject =>
          simp only [hL]
          cases hK : TutorAgent.selectKey subject
              (analysis.getD "confidence" (.num 0)) with
          | none => simp only [hK]
          | some key =>
            simp only [hK, hget, TutorAgent.delegate, hagree key]

/-- C8, witness: the window at concrete inputs — a one-message
conversation is kept whole, the ten-message conversation `cMsgs` yields
exactly its last six messages, and the router agreement holds at the
concrete environment `cRouterEnv`. -/
theorem c8_witness :
    lastSix [⟨"user", "m1"⟩] = [⟨"user", "m1"⟩] ∧
    lastSix cMsgs =
      [⟨"user", "m5"⟩, ⟨"assistant", "m6"⟩, ⟨"user", "m7"⟩,
       ⟨"assistant", "m8"⟩, ⟨"user", "m9"⟩, ⟨"assistant", "m10"⟩] ∧
    TutorAgent.process { cRouterEnv with specialist := cRouterEnv.specialist }
        "q" "u" "cid1" =
      TutorAgent.process cRouterEnv "q" "u" "cid1" :=
  ⟨c8_window.1 [⟨"user", "m1"⟩] (by simp),
   c8_window.2.2.1 ⟨"user", "m1"⟩ ⟨"assistant", "m2"⟩ ⟨"user", "m3"⟩
     ⟨"assistant", "m4"⟩ ⟨"user", "m5"⟩ ⟨"assistant", "m6"⟩ ⟨"user", "m7"⟩
     ⟨"assistant", "m8"⟩ ⟨"user", "m9"⟩ ⟨"assistant", "m10"⟩,
   c8_window.2.2.2 cRouterEnv cRouterEnv.specialist "q" "u" "cid1" []
     (by decide) rfl (fun _ => rfl)⟩

/-- C9, counterexample.  The empty string is a name absent from the
loaded table, yet `execute` treats it as "no name given"
(`if not constant_name:`) and returns the enumeration with
`success:true` instead of `success:false` with the key list. -/
theorem c9_counterexample :
    tableLookup cTable "" = none ∧
    (PhysicsConstants.execute cTable (some "")).success = true :=
  ⟨rfl, rfl⟩

/-- C9, amended.  For every *non-empty* name: if absent from the loaded
table, `execute` returns `success:false` with the error message and the
list of every valid key; if present, it returns that entry.  With the
name omitted (or empty, which Python falsiness conflates with omitted),
it returns `success:true` with every entry\x27s description and symbol. -/
theorem c9_amended_lookup :
    (∀ (table : List (String × ConstInfo)) (name : String), name ≠ "" →
       tableLookup table name = none →
       PhysicsConstants.execute table (some name) =
         ⟨false, none, some (.keys (table.map (fun p => p.1))),
          some ("Constant \x27" ++ name ++ "\x27 not found")⟩) ∧
    (∀ (table : List (String × ConstInfo)) (name : String) info, name ≠ "" →
       tableLookup table name = some info →
       PhysicsConstants.execute table (some name) =
         ⟨true, some info, none, none⟩) ∧
    (∀ table : List (String × ConstInfo),
       PhysicsConstants.execute table none =
         ⟨true, none, some (.enumeration (table.map (fun p =>
            (p.1, p.2.description, p.2.symbol)))), none⟩) := by
  refine ⟨?_, ?_, fun table => rfl⟩
  · intro table name hne hl
    simp only [PhysicsConstants.execute, Option.getD_some]
    rw [if_neg (by simp [hne]), hl]
  · intro table name info hne hl
    simp only [PhysicsConstants.execute, Option.getD_some]
    rw [if_neg (by simp [hne]), hl]

/-- C9, witness: on the one-entry table, the absent non-empty name
`"G"` fails with the key list, and the present name `"c"` returns its
entry. -/
theorem c9_witness :
    PhysicsConstants.execute cTable (some "G") =
      ⟨false, none, some (.keys ["c"]),
       some ("Constant \x27" ++ "G" ++ "\x27 not found")⟩ ∧
    PhysicsConstants.execute cTable (some "c") =
      ⟨true, some cInfo, none, none⟩ :=
  ⟨c9_amended_lookup.1 cTable "G" (by decide) rfl,
   c9_amended_lookup.2.1 cTable "c" cInfo (by decide) rfl⟩

/-- C7.  When structured extraction of the tool-need analysis fails,
both specialists substitute the default analysis — every tool flag
false, argument fields null, a diagnostic reasoning string — and the
pipeline continues with the knowledge tier instead of aborting; the
`ParseError` is consumed inside `_analyze_tool_need` and never appears
in the returned response. -/
theorem c7_parse_error_default :
    (∀ (gen : Gen) (q response : String) (e : ParseErr),
       gen (mathAnalysisPrompt q) mathAnalysisSys (1 / 10) = .ok response →
       parse_json_response response
           ["use_calculator", "expression", "reasoning"] = .error e →
       MathAgent.analyzeToolNeed gen q = .ok mathDefaultAnalysis ∧
       ∀ context, MathAgent.process gen q context =
         MathAgent.kbOnwards gen q context) ∧
    (∀ (gen : Gen) (q response : String) (e : ParseErr),
       gen (physAnalysisPrompt q) physAnalysisSys (1 / 10) = .ok response →
       parse_json_response response
           ["use_calculator", "expression", "use_constants", "constant_name",
            "reasoning"] = .error e →
       PhysicsAgent.analyzeToolNeed gen q = .ok physDefaultAnalysis ∧
       ∀ table context, PhysicsAgent.process gen table q context =
         PhysicsAgent.kbOnwards gen q context) := by
  constructor
  · intro gen q response e hg hp
    have h1 : MathAgent.analyzeToolNeed gen q = .ok mathDefaultAnalysis := by
      simp only [MathAgent.analyzeToolNeed, hg, hp]
    refine ⟨h1, fun context => ?_⟩
    simp only [MathAgent.process, h1]
    rfl
  · intro gen q response e hg hp
    have h1 : PhysicsAgent.analyzeToolNeed gen q = .ok physDefaultAnalysis := by
      simp only [PhysicsAgent.analyzeToolNeed, hg, hp]
    refine ⟨h1, fun table context => ?_⟩
    simp only [PhysicsAgent.process, h1]
    rfl

/-- C7, witness: a gateway emitting undecodable analysis text — both
agents fall back to the default analysis and the knowledge tier. -/
theorem c7_witness :
    MathAgent.analyzeToolNeed cBadGen "q" = .ok mathDefaultAnalysis ∧
    MathAgent.process cBadGen "q" none = MathAgent.kbOnwards cBadGen "q" none ∧
    PhysicsAgent.analyzeToolNeed cBadGen "q" = .ok physDefaultAnalysis ∧
    PhysicsAgent.process cBadGen cTable "q" none =
      PhysicsAgent.kbOnwards cBadGen "q" none :=
  ⟨(c7_parse_error_default.1 cBadGen "q" "not a json object" .couldNotParse
      rfl rfl).1,
   (c7_parse_error_default.1 cBadGen "q" "not a json object" .couldNotParse
      rfl rfl).2 none,
   (c7_parse_error_default.2 cBadGen "q" "not a json object" .couldNotParse
      rfl rfl).1,
   (c7_parse_error_default.2 cBadGen "q" "not a json object" .couldNotParse
      rfl rfl).2 cTable none⟩

/-- C6, counterexample.  The constants tier does not always return on
tool success: when the analysis sets `use_constants` without naming a
constant, `PhysicsConstants.execute` reports `success:true` (the
enumeration, `constant: None`), the synthesis helper raises
`AttributeError` on `None.get`, and the pipeline falls through — the
response is produced by the knowledge tier with
`tools_used = ["KnowledgeBase"]`, not `["PhysicsConstants"]`. -/
theorem c6_counterexample :
    PhysicsAgent.analyzeToolNeed c6Gen "q" =
      .ok (.obj [("use_calculator", .bool false), ("expression", .null),
                 ("use_constants", .bool true), ("constant_name", .null),
                 ("reasoning", .str "r")]) ∧
    (PhysicsConstants.execute cTable none).success = true ∧
    PhysicsAgent.process c6Gen cTable "q" none =
      .ok { agent := "Physics Agent", response := "kb answer",
            tools_used := ["KnowledgeBase"], confidence := 9 / 10 } :=
  ⟨rfl, rfl, rfl⟩

/-- C6, amended.  The constants tier is checked before the calculator
tier: when the analysis sets `use_constants` and the lookup returns
success *with a constant record* and the synthesis call is healthy,
the specialist returns `tools_used = ["PhysicsConstants"]` with the
record attached; the synthesis prompt embeds the constant\x27s
description, symbol, value and unit; when the tool reports failure
(`success:false`, absent non-empty name) the tier falls through, and a
fallen-through constants tier continues with the calculation tier
onwards instead of aborting. -/
theorem c6_amended_constants_tier :
    (∀ (gen : Gen) (table : List (String × ConstInfo))
       (q response name text : String) (context : Option Ctx) (ta : Json)
       (c : ConstInfo),
       gen (physAnalysisPrompt q) physAnalysisSys (1 / 10) = .ok response →
       parse_json_response response
           ["use_calculator", "expression", "use_constants", "constant_name",
            "reasoning"] = .ok ta →
       ta.isObj = true →
       (ta.getD "use_constants" (.bool false)).truthy = true →
       ta.getD "constant_name" .null = .str name →
       PhysicsConstants.execute table (some name) = ⟨true, some c, none, none⟩ →
       gen (physConstPrompt q c (format_conversation_history context))
           physConstSys (7 / 10) = .ok text →
       PhysicsAgent.process gen table q context =
         .ok { agent := "Physics Agent", response := text,
               tools_used := ["PhysicsConstants"], confidence := 95 / 100,
               constant_info := some c }) ∧
    (∀ (q : String) (c : ConstInfo) (hist : String),
       ∃ s1 s2 s3 s4 s5,
         physConstPrompt q c hist =
           s1 ++ c.description ++ s2 ++ c.symbol ++ s3 ++ c.value ++ s4 ++
             c.unit ++ s5) ∧
    (∀ (gen : Gen) (table : List (String × ConstInfo)) (q name : String)
       (context : Option Ctx) (ta : Json),
       (ta.getD "use_constants" (.bool false)).truthy = true →
       ta.getD "constant_name" .null = .str name →
       name ≠ "" → tableLookup table name = none →
       PhysicsAgent.constTier gen table q context ta = none) ∧
    (∀ (gen : Gen) (table : List (String × ConstInfo))
       (q response : String) (context : Option Ctx) (ta : Json),
       gen (physAnalysisPrompt q) physAnalysisSys (1 / 10) = .ok response →
       parse_json_response response
           ["use_calculator", "expression", "use_constants", "constant_name",
            "reasoning"] = .ok ta →
       ta.isObj = true →
       PhysicsAgent.constTier gen table q context ta = none →
       PhysicsAgent.process gen table q context =
         PhysicsAgent.calcOnwards gen q context ta) := by
  refine ⟨?_, ?_, ?_, ?_⟩
  · intro gen table q response name text context ta c hg hp hobj huse hname hexec htext
    have hA : PhysicsAgent.analyzeToolNeed gen q = .ok ta := by
      simp only [PhysicsAgent.analyzeToolNeed, hg, hp]
    have hTier : PhysicsAgent.constTier gen table q context ta = some
        { agent := "Physics Agent", response := text,
          tools_used := ["PhysicsConstants"], confidence := 95 / 100,
          constant_info := some c } := by
      simp only [PhysicsAgent.constTier, huse, if_true, hname, Json.asConstName,
        hexec, htext]
    simp only [PhysicsAgent.process, hA, hobj, if_true, hTier]
  · intro q c hist
    refine ⟨"Question: " ++ q ++ "\nConstant Information:\n- Name: ",
      "\n- Symbol: ", "\n- Value: ", "\n- Unit: ",
      "\n" ++ hist ++ "\n\nPlease provide a clear explanation of this constant in the context of the question,\nincluding its significance in physics and how it\x27s typically used.", ?_⟩
    simp only [physConstPrompt, String.append_assoc]
  · intro gen table q name context ta huse hname hne hl
    simp only [PhysicsAgent.constTier, huse, if_true, hname, Json.asConstName]
    have : PhysicsConstants.execute table (some name) =
        ⟨false, none, some (.keys (table.map (fun p => p.1))),
         some ("Constant \x27" ++ name ++ "\x27 not found")⟩ := by
      simp only [PhysicsConstants.execute, Option.getD_some]
      rw [if_neg (by simp [hne]), hl]
    rw [this]
    rfl
  · intro gen table q response context ta hg hp hobj hTier
    have hA : PhysicsAgent.analyzeToolNeed gen q = .ok ta := by
      simp only [PhysicsAgent.analyzeToolNeed, hg, hp]
    simp only [PhysicsAgent.process, hA, hobj, if_true, hTier]

set_option maxRecDepth 4000 in
/-- C6, witness: on the one-entry table, an analysis naming `"c"` makes
the specialist answer from the constants tier, and an analysis naming
the absent `"G"` makes the tier fall through. -/
theorem c6_witness :
    PhysicsAgent.process c6bGen cTable "q" none =
      .ok { agent := "Physics Agent", response := "explained",
            tools_used := ["PhysicsConstants"], confidence := 95 / 100,
            constant_info := some cInfo } ∧
    PhysicsAgent.constTier c6bGen cTable "q" none
        (.obj [("use_calculator", .bool false), ("expression", .null),
               ("use_constants", .bool true), ("constant_name", .str "G"),
               ("reasoning", .str "r")]) = none :=
  ⟨c6_amended_constants_tier.1 c6bGen cTable "q" c6bAnalysisText "c"
      "explained" none
      (.obj [("use_calculator", .bool false), ("expression", .null),
             ("use_constants", .bool true), ("constant_name", .str "c"),
             ("reasoning", .str "r")])
      cInfo rfl rfl rfl rfl rfl rfl rfl,
   c6_amended_constants_tier.2.2.1 c6bGen cTable "q" "G" none
      (.obj [("use_calculator", .bool false), ("expression", .null),
             ("use_constants", .bool true), ("constant_name", .str "G"),
             ("reasoning", .str "r")])
      rfl rfl (by decide) rfl⟩

/-- C1, counterexample.  A `GeminiAPIError` raised during the
KnowledgeBase tier does *not* escape as a hard failure:
`KnowledgeBase.execute` converts it to `success:false`, the pipeline
proceeds to the terminal fallback, and the specialist returns an
ordinary tier-5 response — the later tier was attempted, against the
claim. -/
theorem c1_counterexample :
    c1Gen ("q" ++ "\n" ++ format_conversation_history none)
        (kbSystemInstruction "mathematics") (2 / 10) =
      .error "AI service is temporarily unavailable" ∧
    (KnowledgeBase.execute c1Gen "mathematics"
        ("q" ++ "\n" ++ format_conversation_history none)).success = false ∧
    MathAgent.process c1Gen "q" none =
      .ok { agent := "Math Agent", response := "recovered", tools_used := [],
            confidence := 8 / 10 } :=
  ⟨rfl, rfl, rfl⟩

/-- C1, amended.  `ServiceUnavailable` propagation is per stage:
(a) raised during the tool-need analysis generation it propagates
immediately out of the specialist and no tier is attempted; (b) raised
during the calculation tier\x27s synthesis call it is caught by the
tier\x27s `except Exception` and the pipeline continues with the
knowledge tier; (c) raised inside `KnowledgeBase.execute` it is
captured into `success:false` and the terminal fallback is attempted;
(d) raised at the terminal fallback it propagates out of the
specialist. -/
theorem c1_amended_propagation :
    (∀ (gen : Gen) (q : String) (context : Option Ctx) (m : String),
       gen (mathAnalysisPrompt q) mathAnalysisSys (1 / 10) = .error m →
       MathAgent.process gen q context = .error m) ∧
    (∀ (gen : Gen) (q response : String) (context : Option Ctx) (ta : Json)
       (e : String),
       gen (mathAnalysisPrompt q) mathAnalysisSys (1 / 10) = .ok response →
       parse_json_response response
           ["use_calculator", "expression", "reasoning"] = .ok ta →
       ta.isObj = true →
       (ta.getD "use_calculator" (.bool false)).truthy = true →
       (ta.getD "expression" (.str "")).truthy = true →
       (Calculator.execute (ta.getD "expression" (.str "")).asCalcArg).success
         = true →
       gen (mathCalcPrompt q
             (Calculator.execute (ta.getD "expression" (.str "")).asCalcArg)
             (format_conversation_history context)) mathSynthSys (7 / 10) =
         .error e →
       MathAgent.process gen q context = MathAgent.kbOnwards gen q context) ∧
    (∀ (gen : Gen) (q : String) (context : Option Ctx) (e : String),
       gen (q ++ "\n" ++ format_conversation_history context)
           (kbSystemInstruction "mathematics") (2 / 10) = .error e →
       MathAgent.kbOnwards gen q context = MathAgent.fallback gen q context) ∧
    (∀ (gen : Gen) (q : String) (context : Option Ctx) (m : String),
       gen (mathFallbackPrompt q context) mathFallbackSys (7 / 10) = .error m →
       MathAgent.fallback gen q context = .error m) := by
  refine ⟨?_, ?_, ?_, ?_⟩
  · intro gen q context m hg
    simp only [MathAgent.process, MathAgent.analyzeToolNeed, hg]
  · intro gen q response context ta e hg hp hobj huse hexpr hsucc hsynth
    have hA : MathAgent.analyzeToolNeed gen q = .ok ta := by
      simp only [MathAgent.analyzeToolNeed, hg, hp]
    have hTier : MathAgent.calcTier gen q context ta = none := by
      simp only [MathAgent.calcTier, huse, if_true, hexpr, hsucc, hsynth]
    simp only [MathAgent.process, hA, hobj, if_true, hTier]
  · intro gen q context e hkb
    simp only [MathAgent.kbOnwards, KnowledgeBase.execute, hkb]
    rfl
  · intro gen q context m hg
    simp only [MathAgent.fallback, hg]

/-- C1, witness: with the service down the analysis stage propagates
the error; with the service down only at the knowledge-base query the
fall-through runs the terminal fallback; at the fallback the error
propagates. -/
theorem c1_witness :
    MathAgent.process cDownGen "q" none =
      .error "AI service is temporarily unavailable" ∧
    MathAgent.kbOnwards c1Gen "q" none = MathAgent.fallback c1Gen "q" none ∧
    MathAgent.fallback cDownGen "q" none =
      .error "AI service is temporarily unavailable" :=
  ⟨c1_amended_propagation.1 cDownGen "q" none
      "AI service is temporarily unavailable" rfl,
   c1_amended_propagation.2.2.1 c1Gen "q" none
      "AI service is temporarily unavailable" rfl,
   c1_amended_propagation.2.2.2 cDownGen "q" none
      "AI service is temporarily unavailable" rfl⟩

/-- C10.  On a successful request the envelope\x27s `confidence` field is
the classification confidence decoded by the subject-analysis stage;
and the router\x27s outcome is invariant under arbitrary rewriting of the
specialist\x27s own confidence (0.8/0.9/0.95 per tier) — that value is
discarded and never appears in the returned result. -/
theorem c10_confidence_source :
    (∀ (env : RouterEnv) (q uid cid : String) (e : Envelope),
       TutorAgent.process env q uid cid = .ok e →
       ∃ analysis, analyze_question env.gen q = .ok analysis ∧
         e.confidence = analysis.getD "confidence" (.num 0)) ∧
    (∀ (env : RouterEnv) (f : ℚ → ℚ) (q uid cid : String),
       TutorAgent.process (env.withMappedConfidence f) q uid cid =
         TutorAgent.process env q uid cid) := by
  constructor
  · intro env q uid cid e h
    simp only [TutorAgent.process] at h
    split at h
    · simp at h
    · cases hA : analyze_question env.gen q with
      | error m => rw [hA] at h; simp at h
      | ok analysis =>
        refine ⟨analysis, rfl, ?_⟩
        rw [hA] at h
        simp only at h
        split at h
        · simp at h
        · split at h
          · simp at h
          · split at h
            · simp at h
            · split at h
              · simp at h
              · simp only [TutorAgent.delegate] at h
                split at h
                · simp at h
                · split at h
                  · simp at h
                  · injection h with h2
                    rw [← h2]
  · intro env f q uid cid
    simp only [TutorAgent.process, RouterEnv.withMappedConfidence]
    cases (if cid == "" then
            match env.createConv with
            | some c => Except.ok c
            | none => Except.error "Failed to create conversation"
           else Except.ok cid : Except String String) with
    | error m => rfl
    | ok cid' =>
      cases hA : analyze_question env.gen q with
      | error m => simp only [hA]
      | ok analysis =>
        simp only [hA]
        by_cases hT : (!(analysis.truthy && analysis.isObj)) = true
        · simp only [hT, if_true]
        · simp only [Bool.not_eq_true] at hT
          simp only [hT, Bool.false_eq_true, if_false]
          cases hL : pyLower (analysis.getD "subject" (.str "")) with
          | none => simp only [hL]
          | some subject =>
            simp only [hL]
            cases hK : TutorAgent.selectKey subject
                (analysis.getD "confidence" (.num 0)) with
            | none => simp only [hK]
            | some key =>
              simp only [hK]
              cases hM : env.getMessages cid' uid with
              | none => simp only [hM]
              | some msgs =>
                simp only [hM, TutorAgent.delegate]
                cases hS : env.specialist key q ⟨cid', lastSix msgs⟩ with
                | error m => simp only [hS, Except.map]
                | ok r => simp only [hS, Except.map, mapConfidence]

/-- C10, witness: at the concrete environment the returned confidence
is the classification\x27s 0.9 (the specialist stub\x27s 0.8 is discarded),
and zeroing every specialist confidence leaves the outcome unchanged. -/
theorem c10_witness :
    (∃ analysis, analyze_question cRouterEnv.gen "q" = .ok analysis ∧
       (Envelope.mk "ans" "Physics Agent" "chemistry" (.num (9 / 10)) "cid1"
         []).confidence = analysis.getD "confidence" (.num 0)) ∧
    TutorAgent.process (cRouterEnv.withMappedConfidence (fun _ => 0))
        "q" "u" "cid1" =
      TutorAgent.process cRouterEnv "q" "u" "cid1" :=
  ⟨c10_confidence_source.1 cRouterEnv "q" "u" "cid1"
     ⟨"ans", "Physics Agent", "chemistry", .num (9 / 10), "cid1", []⟩ rfl,
   c10_confidence_source.2 cRouterEnv (fun _ => 0) "q" "u" "cid1"⟩
